import Mathlib

/-!
Shallow embedding of the medbook-orderservice order/payment core
(src/routes/patients/orders.rs, src/routes/payments.rs, src/consumers/orders.rs,
src/api/deliveries.rs, src/api/products.rs, src/models.rs, src/schema.rs).

Machine-level conventions of the embedding:
* monetary amounts (`f32` in the source) are modelled as rationals;
* UUIDs and timestamps are modelled as integers;
* a `serde_json::Value` delivery-address snapshot is modelled as `JValue`:
  the one field the service ever inspects (`patient_id`, possibly absent)
  plus an opaque remainder;
* each diesel table is a list of rows; the diesel conditional
  `update ... filter ... returning ... get_result` is `updateReturning`;
* `AsyncConnection::transaction` is `runTransaction`: the body either
  returns a new database state (commit) or an error (rollback, the caller
  keeps the original state).
-/

namespace Medbook

/-- Monetary amount (`f32` in the source, modelled as a rational). -/
abbrev Money := ℚ

/-- A `serde_json::Value` as the service uses it: the ownership check
deserializes an optional `patient_id` field; everything else is opaque. -/
structure JValue where
  patientId : Option Int
  rest : String
deriving DecidableEq, Repr

/-- Row of `cart_items` (src/models.rs `CartItemEntity`). -/
structure CartItemEntity where
  cart_id : Int
  product_id : Int
  quantity : Int
  created_at : Int
  updated_at : Int
deriving DecidableEq, Repr

/-- Row of `orders` (src/models.rs `OrderEntity`). -/
structure OrderEntity where
  id : Int
  cart_id : Int
  patient_id : Int
  status : String
  order_type : String
  delivery_id : Option Int
  delivery_address : JValue
  created_at : Int
  updated_at : Int
  deleted_at : Option Int
deriving DecidableEq, Repr

/-- Row of `payments` (src/models.rs `PaymentEntity`). -/
structure PaymentEntity where
  id : Int
  order_id : Int
  amount : Money
  status : String
  provider : String
  provider_ref : Option String
  failure_reason : Option String
  created_at : Int
  updated_at : Int
deriving DecidableEq, Repr

/-- One `(product_id, quantity)` line of an outbox event
(medbook_events `OrderItem`, built in src/routes/patients/orders.rs). -/
structure OrderItem where
  product_id : Int
  quantity : Int
deriving DecidableEq, Repr

/-- Payload of `inventory.reserve_order` (medbook_events `OrderRequestedEvent`). -/
structure OrderRequestedEvent where
  order_id : Int
  order_items : List OrderItem
deriving DecidableEq, Repr

/-- Payload of `inventory.cancel_order` (medbook_events `OrderCancelledEvent`). -/
structure OrderCancelledEvent where
  order_id : Int
  order_items : List OrderItem
deriving DecidableEq, Repr

/-- Payload of `delivery.order_request` (medbook_events `DeliveryOrderRequestEvent`). -/
structure DeliveryOrderRequestEvent where
  delivery_address : JValue
  order_id : Int
  order_type : String
deriving DecidableEq, Repr

/-- Serialized payload of an outbox row, kept typed in the embedding. -/
inductive OutboxPayload where
  | orderRequested (e : OrderRequestedEvent)
  | orderCancelled (e : OrderCancelledEvent)
  | deliveryOrderRequest (e : DeliveryOrderRequestEvent)
deriving DecidableEq, Repr

/-- Row of the `outbox` table (src/schema.rs; timestamps are database
defaults never read by this service and are omitted). -/
structure OutboxEntry where
  id : Int
  event_type : String
  payload : OutboxPayload
  status : String
deriving DecidableEq, Repr

/-- The service's database: the four tables of src/schema.rs
(`carts` itself is never touched by the order/payment core). -/
structure DB where
  orders : List OrderEntity
  cart_items : List CartItemEntity
  payments : List PaymentEntity
  outbox : List OutboxEntry
deriving DecidableEq, Repr

/-- The error type of medbook_core::app_error::AppError as the handlers in
src build it; anyhow errors contextualised into `AppError` become `Other`. -/
inductive AppError where
  | NotFound
  | BadRequest (msg : String)
  | ForbiddenResource (msg : String)
  | ServiceUnreachable (svc : String)
  | Other (msg : String)
deriving DecidableEq, Repr

/-- Outcome of the HTTP GET against the delivery service in
src/api/deliveries.rs: the send can fail (unreachable), the body can fail
to parse, or a parsed `StdResponse` arrives with an optional `data` value. -/
inductive FetchResult where
  | unreachable
  | badJson
  | resp (data : Option JValue)
deriving DecidableEq, Repr

/-- Request body of POST /patients/orders (src/routes/patients/orders.rs
`CreateOrderReq`). -/
structure CreateOrderReq where
  delivery_address_id : Int
  cart_id : Int
deriving DecidableEq, Repr

/-- Diesel `update(..).filter(pred).set(upd).returning(..).get_result`:
`none` when zero rows match (diesel `NotFound`), otherwise the table with
`upd` applied to every matching row together with the updated first match. -/
def updateReturning {α : Type} (rows : List α) (pred : α → Bool) (upd : α → α) :
    Option (List α × α) :=
  match rows.find? pred with
  | none => none
  | some r => some (rows.map fun x => if pred x then upd x else x, upd r)

/-- Transaction semantics of diesel-async `AsyncConnection::transaction`,
per the spec's transactional guarantee: the body runs against the current
database; on `ok` the produced state commits, on `error` every change made
inside the body is rolled back and the caller keeps the original state. -/
def runTransaction {α : Type} (db : DB) (body : DB → Except AppError (DB × α)) :
    DB × Except AppError α :=
  match body db with
  | .ok (db2, a) => (db2, .ok a)
  | .error e => (db, .error e)

/-- Modelled from the spec: `outbox::publish` lives in the medbook_core
crate, not under src/. Per spec §4.2 it appends exactly one outbox row with
the given routing key and payload, inside the caller's transaction
(`record_event(transaction_handle, event_type, payload)`), status starting
PENDING; the `fails` flag injects a database failure at this step so the
rollback half of the contract can be stated. The row id stands for the
serial primary key of the append-only table. -/
def outboxPublish (db : DB) (event_type : String) (payload : OutboxPayload)
    (fails : Bool) : Except AppError DB :=
  if fails then .error (.Other "Failed to publish outbox event")
  else .ok { db with
    outbox := db.outbox ++
      [{ id := Int.ofNat db.outbox.length, event_type := event_type,
         payload := payload, status := "PENDING" }] }

/-- src/api/deliveries.rs `get_delivery_address_as_value_with_ownership_check`:
fetches the address, then deserializes its `patient_id` and compares it to
the expected owner; every failure mode of the source is kept distinct. -/
def get_delivery_address_as_value_with_ownership_check
    (fetch : FetchResult) (patient_id : Int) : Except AppError JValue :=
  match fetch with
  | .unreachable => .error (.ServiceUnreachable "DeliveryService")
  | .badJson => .error (.Other "Failed to parse JSON")
  | .resp none => .error (.Other "Delivery address not found")
  | .resp (some v) =>
    match v.patientId with
    | none => .error (.Other "Failed to deserialize delivery address")
    | some pid =>
      if pid ≠ patient_id then
        .error (.Other "Delivery address patient IDs do not match")
      else
        .ok v

/-- Total price as computed in src/routes/patients/orders.rs lines 463-466:
each cart item contributes the looked-up unit price, `0.0` when the pricing
response has no entry for the product id. (The source does not multiply by
`item.quantity`.) `unit_prices` is the map returned by
`get_product_unit_prices` (src/api/products.rs). -/
def total_price (order_items : List CartItemEntity)
    (unit_prices : Int → Option Money) : Money :=
  (order_items.map fun item => (unit_prices item.product_id).getD 0).sum

/-- The amount formula stated by the spec (§4.1 "summing
`line_item.quantity × unit_price`"), written from the spec's words for
comparison with `total_price` above. -/
def spec_total_price (order_items : List CartItemEntity)
    (unit_prices : Int → Option Money) : Money :=
  (order_items.map fun item =>
    (item.quantity : Money) * (unit_prices item.product_id).getD 0).sum

/-- src/routes/patients/orders.rs `create_order`: ownership-check the
delivery address (any failure is mapped to the one ForbiddenResource
message), then in one transaction insert the PENDING order with the address
snapshot, read the cart's items, and publish `inventory.reserve_order`.
`newOrderId`/`now` stand for the database-assigned serial id and
timestamps; `order_type` takes the database default (left `""`). -/
def create_order (fetch : FetchResult) (patient_id : Int)
    (body : CreateOrderReq) (newOrderId now : Int) (publishFails : Bool)
    (db : DB) : DB × Except AppError OrderEntity :=
  match get_delivery_address_as_value_with_ownership_check fetch patient_id with
  | .error _ =>
    (db, .error (.ForbiddenResource "Patient does not own this delivery address"))
  | .ok delivery_address =>
    runTransaction db (fun conn =>
      let order : OrderEntity :=
        { id := newOrderId, cart_id := body.cart_id, patient_id := patient_id,
          status := "PENDING", order_type := "", delivery_id := none,
          delivery_address := delivery_address,
          created_at := now, updated_at := now, deleted_at := none }
      let conn := { conn with orders := conn.orders ++ [order] }
      let order_items :=
        conn.cart_items.filter fun item => item.cart_id == order.cart_id
      let event_items :=
        order_items.map fun item => OrderItem.mk item.product_id item.quantity
      match outboxPublish conn "inventory.reserve_order"
          (.orderRequested ⟨order.id, event_items⟩) publishFails with
      | .error e => .error e
      | .ok conn => .ok (conn, order))

/-- src/routes/patients/orders.rs `cancel_order`: one transaction holding a
conditional update (this order id, not soft-deleted, owned by the acting
patient, status RESERVED → CANCEL_PENDING + `deleted_at = now`; zero rows →
`NotFound`) followed by publishing `inventory.cancel_order`. -/
def cancel_order (id : Int) (patient_id : Int) (now : Int)
    (publishFails : Bool) (db : DB) : DB × Except AppError OrderEntity :=
  runTransaction db (fun conn =>
    match updateReturning conn.orders
        (fun o => o.id == id && o.deleted_at == none &&
          o.patient_id == patient_id && o.status == "RESERVED")
        (fun o => { o with deleted_at := some now, status := "CANCEL_PENDING" }) with
    | none => .error .NotFound
    | some (orders2, cancelled_order) =>
      let conn := { conn with orders := orders2 }
      let order_items :=
        conn.cart_items.filter fun item => item.cart_id == cancelled_order.cart_id
      let event_items :=
        order_items.map fun item => OrderItem.mk item.product_id item.quantity
      match outboxPublish conn "inventory.cancel_order"
          (.orderCancelled ⟨cancelled_order.id, event_items⟩) publishFails with
      | .error e => .error e
      | .ok conn => .ok (conn, cancelled_order))

/-- src/routes/patients/orders.rs `create_payment_for_order`: reject any
provider other than "qr_payment" before touching the database; read the
RESERVED order of the acting patient (`NotFound` otherwise); compute
`total_price` from the cart items and the pricing response; then in one
transaction conditionally advance the order RESERVED → PAYMENT_PENDING and
insert the PENDING payment carrying that amount. -/
def create_payment_for_order (id : Int) (patient_id : Int) (provider : String)
    (unit_prices : Int → Option Money) (newPaymentId now : Int) (db : DB) :
    DB × Except AppError (OrderEntity × PaymentEntity) :=
  if provider ≠ "qr_payment" then
    (db, .error (.BadRequest (provider ++ " is not a valid payment provider")))
  else
    match db.orders.find?
        (fun o => o.id == id && o.patient_id == patient_id &&
          o.status == "RESERVED") with
    | none => (db, .error .NotFound)
    | some order =>
      let order_items :=
        db.cart_items.filter fun item => item.cart_id == order.cart_id
      let total := total_price order_items unit_prices
      runTransaction db (fun conn =>
        match updateReturning conn.orders
            (fun o => o.id == id && o.patient_id == patient_id &&
              o.status == "RESERVED")
            (fun o => { o with status := "PAYMENT_PENDING" }) with
        | none => .error (.Other "Failed to update order")
        | some (orders2, updated_order) =>
          let payment : PaymentEntity :=
            { id := newPaymentId, order_id := updated_order.id, amount := total,
              status := "PENDING", provider := provider, provider_ref := none,
              failure_reason := none, created_at := now, updated_at := now }
          let conn := { conn with
            orders := orders2,
            payments := conn.payments ++ [payment] }
          .ok (conn, (updated_order, payment)))

/-- src/routes/payments.rs `mock_pay`: one transaction holding two
conditional updates — payment PENDING → PAID by payment id, then its order
PAYMENT_PENDING → DELIVERY_PENDING — followed by publishing
`delivery.order_request`; zero matching rows at either update aborts the
whole transaction. -/
def mock_pay (id : Int) (publishFails : Bool) (db : DB) :
    DB × Except AppError (PaymentEntity × OrderEntity) :=
  runTransaction db (fun conn =>
    match updateReturning conn.payments
        (fun p => p.id == id && p.status == "PENDING")
        (fun p => { p with status := "PAID" }) with
    | none => .error (.Other "Failed to update payment status")
    | some (payments2, updated_payment) =>
      let conn := { conn with payments := payments2 }
      match updateReturning conn.orders
          (fun o => o.id == updated_payment.order_id &&
            o.status == "PAYMENT_PENDING")
          (fun o => { o with status := "DELIVERY_PENDING" }) with
      | none => .error (.Other "Failed to update order status")
      | some (orders2, updated_order) =>
        let conn := { conn with orders := orders2 }
        match outboxPublish conn "delivery.order_request"
            (.deliveryOrderRequest ⟨updated_order.delivery_address,
              updated_order.id, updated_order.order_type⟩) publishFails with
        | .error e => .error e
        | .ok conn => .ok (conn, (updated_payment, updated_order)))

/-- Decoded payload of `orders.order_reserved` (medbook_events
`OrderReservedEvent`). -/
structure OrderReservedEvent where
  order_id : Int
deriving DecidableEq, Repr

/-- Decoded payload of `orders.order_rejected` (medbook_events
`OrderRejectedEvent`). -/
structure OrderRejectedEvent where
  order_id : Int
deriving DecidableEq, Repr

/-- Decoded payload of `orders.order_cancelled` (medbook_events
`OrderCancelSuccessEvent`). -/
structure OrderCancelSuccessEvent where
  order_id : Int
deriving DecidableEq, Repr

/-- Decoded payload of `orders.delivery_created` (medbook_events
`DeliveryCreatedEvent`). -/
structure DeliveryCreatedEvent where
  order_id : Int
  delivery_id : Int
deriving DecidableEq, Repr

/-- Decoded payload of `orders.delivery_success` (medbook_events
`DeliverySuccessEvent`). -/
structure DeliverySuccessEvent where
  order_id : Int
deriving DecidableEq, Repr

/-- src/consumers/orders.rs `order_reserved`: update orders filtered only
by the event's order id, setting status RESERVED (no expected-prior-status
guard in the source). -/
def order_reserved (db : DB) (payload : OrderReservedEvent) : DB :=
  { db with orders := db.orders.map fun o =>
      if o.id == payload.order_id then { o with status := "RESERVED" } else o }

/-- src/consumers/orders.rs `order_rejected`: set status REJECTED on the
rows matching the event's order id (no status guard in the source). -/
def order_rejected (db : DB) (payload : OrderRejectedEvent) : DB :=
  { db with orders := db.orders.map fun o =>
      if o.id == payload.order_id then { o with status := "REJECTED" } else o }

/-- src/consumers/orders.rs `order_cancel_success`: set status CANCELLED on
the rows matching the event's order id (no status guard in the source). -/
def order_cancel_success (db : DB) (payload : OrderCancelSuccessEvent) : DB :=
  { db with orders := db.orders.map fun o =>
      if o.id == payload.order_id then { o with status := "CANCELLED" } else o }

/-- src/consumers/orders.rs `delivery_created`: set `delivery_id` on the
rows matching the event's order id; no other column is touched. -/
def delivery_created (db : DB) (payload : DeliveryCreatedEvent) : DB :=
  { db with orders := db.orders.map fun o =>
      if o.id == payload.order_id then
        { o with delivery_id := some payload.delivery_id } else o }

/-- src/consumers/orders.rs `delivery_success`: set status DELIVERED on the
rows matching the event's order id (no status guard in the source). -/
def delivery_success (db : DB) (payload : DeliverySuccessEvent) : DB :=
  { db with orders := db.orders.map fun o =>
      if o.id == payload.order_id then { o with status := "DELIVERED" } else o }

/-- The empty database, used as a base state in concrete instantiations. -/
def emptyDB : DB := { orders := [], cart_items := [], payments := [], outbox := [] }

/-- Cart of the spec's worked example: 2 units of product 101 and 1 unit of
product 102, all in cart 1 (product A = 101, product B = 102). -/
def exampleItems : List CartItemEntity :=
  [⟨1, 101, 2, 0, 0⟩, ⟨1, 102, 1, 0, 0⟩]

/-- Pricing response containing only product 101, at unit price 10.00. -/
def examplePrices : Int → Option Money :=
  fun i => if i == 101 then some 10 else none

/-- A RESERVED order of patient 7 over cart 1. -/
def exampleOrder : OrderEntity :=
  { id := 1, cart_id := 1, patient_id := 7, status := "RESERVED",
    order_type := "", delivery_id := none,
    delivery_address := ⟨some 7, "10 Main St"⟩,
    created_at := 0, updated_at := 0, deleted_at := none }

/-- Database holding `exampleOrder` and the example cart. -/
def exampleDB : DB :=
  { orders := [exampleOrder], cart_items := exampleItems,
    payments := [], outbox := [] }

/-- C1: the payment amount computed by `create_payment_for_order` does not
equal the spec's sum of quantity × unit_price. On the spec's own example —
cart items (product 101, qty 2), (product 102, qty 1) and a pricing
response containing only product 101 at 10.00 — the code computes and
stores 10.00 (it sums bare unit prices, ignoring quantity), while the claim
demands 20.00. -/
theorem create_payment_amount_ignores_quantity :
    total_price exampleItems examplePrices = 10 ∧
    spec_total_price exampleItems examplePrices = 20 ∧
    (create_payment_for_order 1 7 "qr_payment" examplePrices 55 3
        exampleDB).2.toOption.map (fun r => r.2.amount) = some 10 ∧
    (10 : Money) ≠ 20 := by
  refine ⟨?_, ?_, ?_, by norm_num⟩
  · norm_num [total_price, exampleItems, examplePrices]
  · norm_num [spec_total_price, exampleItems, examplePrices]
  · norm_num [create_payment_for_order, exampleDB, exampleOrder, exampleItems,
      examplePrices, total_price, runTransaction, updateReturning, List.find?,
      Except.toOption]

/-- C2: the consumer handlers are not conditional on the order's current
status. An order whose status has already advanced to DELIVERED, on receipt
of an `orders.order_reserved` event for its id, is overwritten back to
RESERVED instead of being left unmodified. -/
theorem consumer_event_overwrites_advanced_status :
    ({ exampleDB with orders := [{ exampleOrder with status := "DELIVERED" }] } :
        DB).orders.map OrderEntity.status = ["DELIVERED"] ∧
    (order_reserved
        { exampleDB with orders := [{ exampleOrder with status := "DELIVERED" }] }
        ⟨1⟩).orders.map OrderEntity.status = ["RESERVED"] := by
  constructor <;> rfl

/-- Rollback half of the outbox contract for `create_order`: if the
operation does not succeed, the database is unchanged. -/
lemma create_order_rollback (fetch : FetchResult) (patient_id : Int)
    (body : CreateOrderReq) (oid now : Int) (pf : Bool) (db : DB)
    (h : (create_order fetch patient_id body oid now pf db).2.isOk = false) :
    (create_order fetch patient_id body oid now pf db).1 = db := by
  rcases hc : get_delivery_address_as_value_with_ownership_check fetch patient_id with e | addr
  · simp [create_order, hc]
  · cases pf
    · exfalso
      simp [create_order, hc, runTransaction, outboxPublish, Except.isOk,
        Except.toBool] at h
    · simp [create_order, hc, runTransaction, outboxPublish]

/-- Commit half of the outbox contract for `create_order`: on success,
exactly one `inventory.reserve_order` outbox row is appended. -/
lemma create_order_commit_outbox (fetch : FetchResult) (patient_id : Int)
    (body : CreateOrderReq) (oid now : Int) (pf : Bool) (db : DB)
    (h : (create_order fetch patient_id body oid now pf db).2.isOk = true) :
    ∃ entry, (create_order fetch patient_id body oid now pf db).1.outbox
        = db.outbox ++ [entry] ∧ entry.event_type = "inventory.reserve_order" := by
  rcases hc : get_delivery_address_as_value_with_ownership_check fetch patient_id with e | addr
  · exfalso
    simp [create_order, hc, Except.isOk, Except.toBool] at h
  · cases pf
    · refine ⟨OutboxEntry.mk (Int.ofNat db.outbox.length) "inventory.reserve_order"
        (.orderRequested ⟨oid,
          (db.cart_items.filter fun item => item.cart_id == body.cart_id).map
            fun item => ⟨item.product_id, item.quantity⟩⟩) "PENDING", ?_, rfl⟩
      simp [create_order, hc, runTransaction, outboxPublish]
    · exfalso
      simp [create_order, hc, runTransaction, outboxPublish, Except.isOk,
        Except.toBool] at h

/-- Rollback half of the outbox contract for `cancel_order`. -/
lemma cancel_order_rollback (id patient_id now : Int) (pf : Bool) (db : DB)
    (h : (cancel_order id patient_id now pf db).2.isOk = false) :
    (cancel_order id patient_id now pf db).1 = db := by
  rcases hf : db.orders.find? (fun o => o.id == id && o.deleted_at == none &&
      o.patient_id == patient_id && o.status == "RESERVED") with _ | r
  · simp [cancel_order, runTransaction, updateReturning, hf]
  · cases pf
    · exfalso
      simp [cancel_order, runTransaction, updateReturning, outboxPublish, hf,
        Except.isOk, Except.toBool] at h
    · simp [cancel_order, runTransaction, updateReturning, outboxPublish, hf]

/-- Commit half of the outbox contract for `cancel_order`: on success,
exactly one `inventory.cancel_order` outbox row is appended. -/
lemma cancel_order_commit_outbox (id patient_id now : Int) (pf : Bool) (db : DB)
    (h : (cancel_order id patient_id now pf db).2.isOk = true) :
    ∃ entry, (cancel_order id patient_id now pf db).1.outbox
        = db.outbox ++ [entry] ∧ entry.event_type = "inventory.cancel_order" := by
  rcases hf : db.orders.find? (fun o => o.id == id && o.deleted_at == none &&
      o.patient_id == patient_id && o.status == "RESERVED") with _ | r
  · exfalso
    simp [cancel_order, runTransaction, updateReturning, hf, Except.isOk,
      Except.toBool] at h
  · cases pf
    · refine ⟨OutboxEntry.mk (Int.ofNat db.outbox.length) "inventory.cancel_order"
        (.orderCancelled ⟨r.id,
          (db.cart_items.filter fun item => item.cart_id == r.cart_id).map
            fun item => ⟨item.product_id, item.quantity⟩⟩) "PENDING", ?_, rfl⟩
      simp [cancel_order, runTransaction, updateReturning, outboxPublish, hf]
    · exfalso
      simp [cancel_order, runTransaction, updateReturning, outboxPublish, hf,
        Except.isOk, Except.toBool] at h

/-- Rollback half of the outbox contract for `mock_pay`. -/
lemma mock_pay_rollback (id : Int) (pf : Bool) (db : DB)
    (h : (mock_pay id pf db).2.isOk = false) :
    (mock_pay id pf db).1 = db := by
  rcases hp : db.payments.find? (fun p => p.id == id && p.status == "PENDING") with _ | p
  · simp [mock_pay, runTransaction, updateReturning, hp]
  · rcases ho : db.orders.find?
        (fun o => o.id == p.order_id && o.status == "PAYMENT_PENDING") with _ | o
    · simp [mock_pay, runTransaction, updateReturning, outboxPublish, hp, ho]
    · cases pf
      · exfalso
        simp [mock_pay, runTransaction, updateReturning, outboxPublish, hp, ho,
          Except.isOk, Except.toBool] at h
      · simp [mock_pay, runTransaction, updateReturning, outboxPublish, hp, ho]

/-- Commit half of the outbox contract for `mock_pay`: on success, exactly
one `delivery.order_request` outbox row is appended. -/
lemma mock_pay_commit_outbox (id : Int) (pf : Bool) (db : DB)
    (h : (mock_pay id pf db).2.isOk = true) :
    ∃ entry, (mock_pay id pf db).1.outbox
        = db.outbox ++ [entry] ∧ entry.event_type = "delivery.order_request" := by
  rcases hp : db.payments.find? (fun p => p.id == id && p.status == "PENDING") with _ | p
  · exfalso
    simp [mock_pay, runTransaction, updateReturning, hp, Except.isOk,
      Except.toBool] at h
  · rcases ho : db.orders.find?
        (fun o => o.id == p.order_id && o.status == "PAYMENT_PENDING") with _ | o
    · exfalso
      simp [mock_pay, runTransaction, updateReturning, outboxPublish, hp, ho,
        Except.isOk, Except.toBool] at h
    · cases pf
      · refine ⟨OutboxEntry.mk (Int.ofNat db.outbox.length) "delivery.order_request"
          (.deliveryOrderRequest ⟨o.delivery_address, o.id, o.order_type⟩)
          "PENDING", ?_, rfl⟩
        simp [mock_pay, runTransaction, updateReturning, outboxPublish, hp, ho]
      · exfalso
        simp [mock_pay, runTransaction, updateReturning, outboxPublish, hp, ho,
          Except.isOk, Except.toBool] at h

/-- C3: every outbox-writing operation of the service — order creation
(`inventory.reserve_order`), cancellation (`inventory.cancel_order`) and
mock-pay (`delivery.order_request`) — is all-or-nothing: if its transaction
commits, exactly one outbox row with that routing key is appended; if any
step inside fails, the database (state mutation and outbox alike) is
exactly as before. -/
theorem outbox_write_is_transactional (db dbk dbm : DB) (fetch : FetchResult)
    (patient_id : Int) (body : CreateOrderReq) (oid now cid cpat cnow payid : Int)
    (pf pfk pfm : Bool) :
    (((create_order fetch patient_id body oid now pf db).2.isOk = false →
        (create_order fetch patient_id body oid now pf db).1 = db) ∧
      ((create_order fetch patient_id body oid now pf db).2.isOk = true →
        ∃ entry, (create_order fetch patient_id body oid now pf db).1.outbox
          = db.outbox ++ [entry] ∧ entry.event_type = "inventory.reserve_order")) ∧
    (((cancel_order cid cpat cnow pfk dbk).2.isOk = false →
        (cancel_order cid cpat cnow pfk dbk).1 = dbk) ∧
      ((cancel_order cid cpat cnow pfk dbk).2.isOk = true →
        ∃ entry, (cancel_order cid cpat cnow pfk dbk).1.outbox
          = dbk.outbox ++ [entry] ∧ entry.event_type = "inventory.cancel_order")) ∧
    (((mock_pay payid pfm dbm).2.isOk = false → (mock_pay payid pfm dbm).1 = dbm) ∧
      ((mock_pay payid pfm dbm).2.isOk = true →
        ∃ entry, (mock_pay payid pfm dbm).1.outbox
          = dbm.outbox ++ [entry] ∧ entry.event_type = "delivery.order_request")) :=
  ⟨⟨create_order_rollback fetch patient_id body oid now pf db,
      create_order_commit_outbox fetch patient_id body oid now pf db⟩,
    ⟨cancel_order_rollback cid cpat cnow pfk dbk,
      cancel_order_commit_outbox cid cpat cnow pfk dbk⟩,
    ⟨mock_pay_rollback payid pfm dbm, mock_pay_commit_outbox payid pfm dbm⟩⟩

/-- Witness for C3: a committing order creation and a committing
cancellation each append exactly one row of the right routing key, and a
mock-pay whose conditional update matches zero rows leaves the database
untouched. -/
theorem outbox_write_is_transactional_witness :
    (∃ entry, (create_order (.resp (some ⟨some 7, "10 Main St"⟩)) 7 ⟨1, 1⟩ 2 0 false
        exampleDB).1.outbox = exampleDB.outbox ++ [entry] ∧
      entry.event_type = "inventory.reserve_order") ∧
    (∃ entry, (cancel_order 1 7 99 false exampleDB).1.outbox
        = exampleDB.outbox ++ [entry] ∧
      entry.event_type = "inventory.cancel_order") ∧
    (mock_pay 55 false emptyDB).1 = emptyDB := by
  refine ⟨?_, ?_, ?_⟩
  · exact (outbox_write_is_transactional exampleDB exampleDB emptyDB
      (.resp (some ⟨some 7, "10 Main St"⟩)) 7 ⟨1, 1⟩ 2 0 1 7 99 55
      false false false).1.2 (by decide)
  · exact (outbox_write_is_transactional exampleDB exampleDB emptyDB
      (.resp (some ⟨some 7, "10 Main St"⟩)) 7 ⟨1, 1⟩ 2 0 1 7 99 55
      false false false).2.1.2 (by decide)
  · exact (outbox_write_is_transactional exampleDB exampleDB emptyDB
      (.resp (some ⟨some 7, "10 Main St"⟩)) 7 ⟨1, 1⟩ 2 0 1 7 99 55
      false false false).2.2.1 (by decide)

/-- C4: `mock_pay` either leaves the database exactly as it was, or the
targeted payment was PENDING and its owning order was PAYMENT_PENDING, the
call succeeded, and both rows were advanced (payment to PAID, order to
DELIVERY_PENDING) in the same committed transaction — no partial
application is reachable. -/
theorem mock_pay_atomic (id : Int) (pf : Bool) (db : DB) :
    (mock_pay id pf db).1 = db ∨
    (∃ p ∈ db.payments, (p.id == id && p.status == "PENDING") = true ∧
      ∃ o ∈ db.orders, (o.id == p.order_id && o.status == "PAYMENT_PENDING") = true ∧
      (mock_pay id pf db).2.isOk = true ∧
      (mock_pay id pf db).1.payments
        = db.payments.map (fun q => if q.id == id && q.status == "PENDING"
            then { q with status := "PAID" } else q) ∧
      (mock_pay id pf db).1.orders
        = db.orders.map (fun q => if q.id == p.order_id && q.status == "PAYMENT_PENDING"
            then { q with status := "DELIVERY_PENDING" } else q)) := by
  rcases hp : db.payments.find? (fun p => p.id == id && p.status == "PENDING") with _ | p
  · left
    simp [mock_pay, runTransaction, updateReturning, hp]
  · rcases ho : db.orders.find?
        (fun o => o.id == p.order_id && o.status == "PAYMENT_PENDING") with _ | o
    · left
      simp [mock_pay, runTransaction, updateReturning, outboxPublish, hp, ho]
    · cases pf
      · right
        have hpm := List.mem_of_find?_eq_some hp
        have hpp := List.find?_some hp
        have hom := List.mem_of_find?_eq_some ho
        have hop := List.find?_some ho
        refine ⟨p, hpm, hpp, o, hom, hop, ?_, ?_, ?_⟩ <;>
          simp [mock_pay, runTransaction, updateReturning, outboxPublish, hp, ho,
            Except.isOk, Except.toBool]
      · left
        simp [mock_pay, runTransaction, updateReturning, outboxPublish, hp, ho]

/-- Updating the rows of a list that satisfy `pred`, with an update that
leaves `pred` invariant and is itself idempotent, is an idempotent
operation on the list. -/
lemma map_update_idem {α : Type} (pred : α → Bool) (upd : α → α)
    (hpred : ∀ x, pred (upd x) = pred x) (hupd : ∀ x, upd (upd x) = upd x)
    (l : List α) :
    ((l.map fun x => if pred x then upd x else x).map
        fun x => if pred x then upd x else x)
      = l.map fun x => if pred x then upd x else x := by
  rw [List.map_map]
  congr 1
  funext x
  by_cases h : pred x
  · simp [Function.comp_apply, h, hpred, hupd]
  · simp [Function.comp_apply, h]

/-- C5: each of the five consumer handlers applies an absolute update
(set status to a constant, or set delivery_id to the event's value), so
applying any handler twice with the same event produces the same database
as applying it once — redelivery causes no double effect. -/
theorem consumer_handlers_idempotent (db : DB) (e1 : OrderReservedEvent)
    (e2 : OrderRejectedEvent) (e3 : OrderCancelSuccessEvent)
    (e4 : DeliveryCreatedEvent) (e5 : DeliverySuccessEvent) :
    order_reserved (order_reserved db e1) e1 = order_reserved db e1 ∧
    order_rejected (order_rejected db e2) e2 = order_rejected db e2 ∧
    order_cancel_success (order_cancel_success db e3) e3 = order_cancel_success db e3 ∧
    delivery_created (delivery_created db e4) e4 = delivery_created db e4 ∧
    delivery_success (delivery_success db e5) e5 = delivery_success db e5 := by
  refine ⟨?_, ?_, ?_, ?_, ?_⟩
  · simp only [order_reserved]
    congr 1
    exact map_update_idem (fun o => o.id == e1.order_id)
      (fun o => { o with status := "RESERVED" }) (fun x => rfl) (fun x => rfl) db.orders
  · simp only [order_rejected]
    congr 1
    exact map_update_idem (fun o => o.id == e2.order_id)
      (fun o => { o with status := "REJECTED" }) (fun x => rfl) (fun x => rfl) db.orders
  · simp only [order_cancel_success]
    congr 1
    exact map_update_idem (fun o => o.id == e3.order_id)
      (fun o => { o with status := "CANCELLED" }) (fun x => rfl) (fun x => rfl) db.orders
  · simp only [delivery_created]
    congr 1
    exact map_update_idem (fun o => o.id == e4.order_id)
      (fun o => { o with delivery_id := some e4.delivery_id }) (fun x => rfl)
      (fun x => rfl) db.orders
  · simp only [delivery_success]
    congr 1
    exact map_update_idem (fun o => o.id == e5.order_id)
      (fun o => { o with status := "DELIVERED" }) (fun x => rfl) (fun x => rfl) db.orders

/-- C6 counterexample: an unreachable delivery service makes the helper
return the distinct ServiceUnreachable error, but `create_order` reports
it as the very same authorization failure it reports for an address owned
by a different patient — in the order-creation flow the two outcomes are
conflated, refuting the claim as stated. -/
theorem create_order_unreachable_reported_as_forbidden :
    get_delivery_address_as_value_with_ownership_check .unreachable 7
      = .error (.ServiceUnreachable "DeliveryService") ∧
    (create_order .unreachable 7 ⟨1, 1⟩ 1 0 false emptyDB).2
      = .error (.ForbiddenResource "Patient does not own this delivery address") ∧
    (create_order (.resp (some ⟨some 8, "10 Main St"⟩)) 7 ⟨1, 1⟩ 1 0 false emptyDB).2
      = .error (.ForbiddenResource "Patient does not own this delivery address") :=
  ⟨rfl, rfl, rfl⟩

/-- C6 amended: the lookup helper itself distinguishes the unreachable
service from an ownership mismatch, but `create_order` maps every failure
of the address lookup — the unreachable case included — to one and the
same authorization failure, so the caller of the order-creation flow
cannot tell them apart. -/
theorem address_lookup_distinct_but_create_order_conflates :
    (∀ pid : Int, get_delivery_address_as_value_with_ownership_check .unreachable pid
      = .error (.ServiceUnreachable "DeliveryService")) ∧
    (∀ (pid owner : Int) (rest : String), owner ≠ pid →
      get_delivery_address_as_value_with_ownership_check
          (.resp (some ⟨some owner, rest⟩)) pid
        = .error (.Other "Delivery address patient IDs do not match")) ∧
    (∀ (fetch : FetchResult) (pid : Int) (body : CreateOrderReq)
        (oid now : Int) (pf : Bool) (db : DB) (e : AppError),
      get_delivery_address_as_value_with_ownership_check fetch pid = .error e →
      create_order fetch pid body oid now pf db
        = (db, .error (.ForbiddenResource "Patient does not own this delivery address"))) := by
  refine ⟨fun pid => rfl, ?_, ?_⟩
  · intro pid owner rest h
    simp [get_delivery_address_as_value_with_ownership_check, h]
  · intro fetch pid body oid now pf db e h
    unfold create_order
    rw [h]

/-- Witness for the amended C6, at patient 7 against owner 8 and against an
unreachable delivery service. -/
theorem address_lookup_distinct_but_create_order_conflates_witness :
    get_delivery_address_as_value_with_ownership_check .unreachable 7
      = .error (.ServiceUnreachable "DeliveryService") ∧
    get_delivery_address_as_value_with_ownership_check
        (.resp (some ⟨some 8, "10 Main St"⟩)) 7
      = .error (.Other "Delivery address patient IDs do not match") ∧
    create_order .unreachable 7 ⟨1, 1⟩ 1 0 false emptyDB
      = (emptyDB, .error (.ForbiddenResource "Patient does not own this delivery address")) := by
  refine ⟨address_lookup_distinct_but_create_order_conflates.1 7,
    address_lookup_distinct_but_create_order_conflates.2.1 7 8 "10 Main St" (by decide),
    address_lookup_distinct_but_create_order_conflates.2.2 .unreachable 7 ⟨1, 1⟩ 1 0 false
      emptyDB (.ServiceUnreachable "DeliveryService")
      (address_lookup_distinct_but_create_order_conflates.1 7)⟩

/-- C7: when no order row passes the cancel guard — the id does not exist,
or the order is soft-deleted, belongs to another patient, or is not in
RESERVED status — `cancel_order` returns the client-visible NotFound and
the database (order rows and outbox alike) is exactly as before. -/
theorem cancel_order_guard_miss (id patient_id now : Int) (pf : Bool) (db : DB)
    (h : ∀ o ∈ db.orders,
      (o.id == id && o.deleted_at == none && o.patient_id == patient_id &&
        o.status == "RESERVED") = false) :
    cancel_order id patient_id now pf db = (db, .error .NotFound) := by
  have hfind : db.orders.find?
      (fun o => o.id == id && o.deleted_at == none && o.patient_id == patient_id &&
        o.status == "RESERVED") = none := by
    rw [List.find?_eq_none]
    intro o ho
    simp [h o ho]
  simp only [cancel_order, runTransaction, updateReturning, hfind]

/-- Witness for C7: cancelling an order that is in PAYMENT_PENDING (cancel
is gated on RESERVED) reports NotFound and modifies nothing. -/
theorem cancel_order_guard_miss_witness :
    cancel_order 1 7 99 false
        { exampleDB with orders := [{ exampleOrder with status := "PAYMENT_PENDING" }] }
      = ({ exampleDB with orders := [{ exampleOrder with status := "PAYMENT_PENDING" }] },
         .error .NotFound) :=
  cancel_order_guard_miss 1 7 99 false
    { exampleDB with orders := [{ exampleOrder with status := "PAYMENT_PENDING" }] }
    (by decide)

/-- Mapping a row-update over a list leaves the `delivery_address`
projection of every row unchanged whenever the update itself does. -/
lemma map_addr_update (l : List OrderEntity) (pred : OrderEntity → Bool)
    (upd : OrderEntity → OrderEntity)
    (h : ∀ o, (upd o).delivery_address = o.delivery_address) :
    ((l.map fun x => if pred x then upd x else x).map fun o => o.delivery_address)
      = l.map fun o => o.delivery_address := by
  rw [List.map_map]
  apply List.map_congr_left
  intro a _
  by_cases hc : pred a
  · simp [Function.comp_apply, hc, h]
  · simp [Function.comp_apply, hc]

/-- `cancel_order` never rewrites any order's delivery-address snapshot. -/
lemma cancel_order_preserves_addresses (id patient_id now : Int) (pf : Bool) (db : DB) :
    ((cancel_order id patient_id now pf db).1.orders.map fun o => o.delivery_address)
      = db.orders.map fun o => o.delivery_address := by
  rcases hf : db.orders.find? (fun o => o.id == id && o.deleted_at == none &&
      o.patient_id == patient_id && o.status == "RESERVED") with _ | r
  · simp [cancel_order, runTransaction, updateReturning, hf]
  · cases pf
    · have horders : (cancel_order id patient_id now false db).1.orders
          = db.orders.map fun x =>
              if (x.id == id && x.deleted_at == none && x.patient_id == patient_id &&
                  x.status == "RESERVED")
              then { x with deleted_at := some now, status := "CANCEL_PENDING" }
              else x := by
        simp [cancel_order, runTransaction, updateReturning, outboxPublish, hf]
      rw [horders]
      exact map_addr_update db.orders _ _ (fun o => rfl)
    · simp [cancel_order, runTransaction, updateReturning, outboxPublish, hf]

/-- `create_payment_for_order` never rewrites any order's delivery-address
snapshot. -/
lemma create_payment_preserves_addresses (id patient_id : Int) (provider : String)
    (up : Int → Option Money) (npid now : Int) (db : DB) :
    ((create_payment_for_order id patient_id provider up npid now db).1.orders.map
        fun o => o.delivery_address)
      = db.orders.map fun o => o.delivery_address := by
  by_cases hprov : provider ≠ "qr_payment"
  · simp [create_payment_for_order, hprov]
  · rcases hf : db.orders.find? (fun o => o.id == id && o.patient_id == patient_id &&
        o.status == "RESERVED") with _ | r
    · simp [create_payment_for_order, hprov, hf]
    · have horders : (create_payment_for_order id patient_id provider up npid now db).1.orders
          = db.orders.map fun x =>
              if (x.id == id && x.patient_id == patient_id && x.status == "RESERVED")
              then { x with status := "PAYMENT_PENDING" } else x := by
        simp [create_payment_for_order, hprov, hf, runTransaction, updateReturning]
      rw [horders]
      exact map_addr_update db.orders _ _ (fun o => rfl)

/-- `mock_pay` never rewrites any order's delivery-address snapshot. -/
lemma mock_pay_preserves_addresses (id : Int) (pf : Bool) (db : DB) :
    ((mock_pay id pf db).1.orders.map fun o => o.delivery_address)
      = db.orders.map fun o => o.delivery_address := by
  rcases hp : db.payments.find? (fun p => p.id == id && p.status == "PENDING") with _ | p
  · simp [mock_pay, runTransaction, updateReturning, hp]
  · rcases ho : db.orders.find?
        (fun o => o.id == p.order_id && o.status == "PAYMENT_PENDING") with _ | o
    · simp [mock_pay, runTransaction, updateReturning, outboxPublish, hp, ho]
    · cases pf
      · have horders : (mock_pay id false db).1.orders
            = db.orders.map fun x =>
                if (x.id == p.order_id && x.status == "PAYMENT_PENDING")
                then { x with status := "DELIVERY_PENDING" } else x := by
          simp [mock_pay, runTransaction, updateReturning, outboxPublish, hp, ho]
        rw [horders]
        exact map_addr_update db.orders _ _ (fun o => rfl)
      · simp [mock_pay, runTransaction, updateReturning, outboxPublish, hp, ho]

/-- C8: when the address ownership check passes, the created order has
status PENDING and carries the fetched delivery-address snapshot, the order
row and exactly one `inventory.reserve_order` outbox entry listing every
(product_id, quantity) line of the order's cart are appended within the
same transaction; and no other operation of the service ever rewrites a
stored delivery-address snapshot. -/
theorem create_order_snapshot_and_reserve_event (fetch : FetchResult)
    (patient_id : Int) (body : CreateOrderReq) (oid now : Int) (db : DB) (addr : JValue)
    (haddr : get_delivery_address_as_value_with_ownership_check fetch patient_id
      = .ok addr) :
    (∃ order entry,
      (create_order fetch patient_id body oid now false db).2 = .ok order ∧
      order.status = "PENDING" ∧
      order.delivery_address = addr ∧
      order.patient_id = patient_id ∧
      order.cart_id = body.cart_id ∧
      (create_order fetch patient_id body oid now false db).1.orders
        = db.orders ++ [order] ∧
      (create_order fetch patient_id body oid now false db).1.outbox
        = db.outbox ++ [entry] ∧
      entry.event_type = "inventory.reserve_order" ∧
      entry.payload = .orderRequested ⟨oid,
        (db.cart_items.filter fun item => item.cart_id == body.cart_id).map
          fun item => OrderItem.mk item.product_id item.quantity⟩) ∧
    (∀ (cid cpat cnow : Int) (cpf : Bool) (db2 : DB),
      ((cancel_order cid cpat cnow cpf db2).1.orders.map fun o => o.delivery_address)
        = db2.orders.map fun o => o.delivery_address) ∧
    (∀ (pid ppat : Int) (prov : String) (up : Int → Option Money) (npid pnow : Int)
        (db2 : DB),
      ((create_payment_for_order pid ppat prov up npid pnow db2).1.orders.map
          fun o => o.delivery_address)
        = db2.orders.map fun o => o.delivery_address) ∧
    (∀ (mid : Int) (mpf : Bool) (db2 : DB),
      ((mock_pay mid mpf db2).1.orders.map fun o => o.delivery_address)
        = db2.orders.map fun o => o.delivery_address) ∧
    (∀ (db2 : DB) (e : OrderReservedEvent),
      ((order_reserved db2 e).orders.map fun o => o.delivery_address)
        = db2.orders.map fun o => o.delivery_address) ∧
    (∀ (db2 : DB) (e : OrderRejectedEvent),
      ((order_rejected db2 e).orders.map fun o => o.delivery_address)
        = db2.orders.map fun o => o.delivery_address) ∧
    (∀ (db2 : DB) (e : OrderCancelSuccessEvent),
      ((order_cancel_success db2 e).orders.map fun o => o.delivery_address)
        = db2.orders.map fun o => o.delivery_address) ∧
    (∀ (db2 : DB) (e : DeliveryCreatedEvent),
      ((delivery_created db2 e).orders.map fun o => o.delivery_address)
        = db2.orders.map fun o => o.delivery_address) ∧
    (∀ (db2 : DB) (e : DeliverySuccessEvent),
      ((delivery_success db2 e).orders.map fun o => o.delivery_address)
        = db2.orders.map fun o => o.delivery_address) := by
  refine ⟨⟨OrderEntity.mk oid body.cart_id patient_id "PENDING" "" none addr now now none,
    OutboxEntry.mk (Int.ofNat db.outbox.length) "inventory.reserve_order"
      (.orderRequested ⟨oid,
        (db.cart_items.filter fun item => item.cart_id == body.cart_id).map
          fun item => OrderItem.mk item.product_id item.quantity⟩) "PENDING",
    ?_, rfl, rfl, rfl, rfl, ?_, ?_, rfl, rfl⟩,
    fun cid cpat cnow cpf db2 => cancel_order_preserves_addresses cid cpat cnow cpf db2,
    fun pid ppat prov up npid pnow db2 =>
      create_payment_preserves_addresses pid ppat prov up npid pnow db2,
    fun mid mpf db2 => mock_pay_preserves_addresses mid mpf db2,
    fun db2 e => map_addr_update db2.orders _ _ (fun o => rfl),
    fun db2 e => map_addr_update db2.orders _ _ (fun o => rfl),
    fun db2 e => map_addr_update db2.orders _ _ (fun o => rfl),
    fun db2 e => map_addr_update db2.orders _ _ (fun o => rfl),
    fun db2 e => map_addr_update db2.orders _ _ (fun o => rfl)⟩
  · simp [create_order, haddr, runTransaction, outboxPublish]
  · simp [create_order, haddr, runTransaction, outboxPublish]
  · simp [create_order, haddr, runTransaction, outboxPublish]

/-- Witness for C8: the spec's order-creation scenario, patient 7, cart 1
holding 2 of product 101 and 1 of product 102. -/
theorem create_order_snapshot_and_reserve_event_witness :
    ∃ order entry,
      (create_order (.resp (some ⟨some 7, "10 Main St"⟩)) 7 ⟨9, 1⟩ 1 0 false
          { orders := [], cart_items := exampleItems, payments := [], outbox := [] }).2
        = .ok order ∧
      order.status = "PENDING" ∧
      order.delivery_address = ⟨some 7, "10 Main St"⟩ ∧
      order.patient_id = 7 ∧
      order.cart_id = 1 ∧
      (create_order (.resp (some ⟨some 7, "10 Main St"⟩)) 7 ⟨9, 1⟩ 1 0 false
          { orders := [], cart_items := exampleItems, payments := [],
            outbox := [] }).1.orders
        = [order] ∧
      (create_order (.resp (some ⟨some 7, "10 Main St"⟩)) 7 ⟨9, 1⟩ 1 0 false
          { orders := [], cart_items := exampleItems, payments := [],
            outbox := [] }).1.outbox
        = [entry] ∧
      entry.event_type = "inventory.reserve_order" ∧
      entry.payload = .orderRequested ⟨1, [⟨101, 2⟩, ⟨102, 1⟩]⟩ :=
  (create_order_snapshot_and_reserve_event (.resp (some ⟨some 7, "10 Main St"⟩)) 7 ⟨9, 1⟩ 1 0
    { orders := [], cart_items := exampleItems, payments := [], outbox := [] }
    ⟨some 7, "10 Main St"⟩ rfl).1

/-- C9: a delivery-created event changes nothing but the `delivery_id` of
the rows carrying the event's order id: the cart, payment and outbox tables
are untouched, every order row with a different id is exactly as before,
and the matching row differs only in `delivery_id`. -/
theorem delivery_created_frame (db : DB) (ev : DeliveryCreatedEvent) :
    (delivery_created db ev).cart_items = db.cart_items ∧
    (delivery_created db ev).payments = db.payments ∧
    (delivery_created db ev).outbox = db.outbox ∧
    List.Forall₂ (fun o o2 =>
        (o.id ≠ ev.order_id → o2 = o) ∧
        (o.id = ev.order_id → o2 = { o with delivery_id := some ev.delivery_id }))
      db.orders (delivery_created db ev).orders := by
  refine ⟨rfl, rfl, rfl, ?_⟩
  simp only [delivery_created]
  rw [List.forall₂_map_right_iff, List.forall₂_same]
  intro o ho
  constructor
  · intro h
    simp [h]
  · intro h
    simp [h]

/-- Witness for C9, on the example database and delivery 42 for order 1. -/
theorem delivery_created_frame_witness :
    (delivery_created exampleDB ⟨1, 42⟩).cart_items = exampleDB.cart_items ∧
    (delivery_created exampleDB ⟨1, 42⟩).payments = exampleDB.payments ∧
    (delivery_created exampleDB ⟨1, 42⟩).outbox = exampleDB.outbox ∧
    List.Forall₂ (fun o o2 =>
        (o.id ≠ (1 : Int) → o2 = o) ∧
        (o.id = (1 : Int) → o2 = { o with delivery_id := some 42 }))
      exampleDB.orders (delivery_created exampleDB ⟨1, 42⟩).orders :=
  delivery_created_frame exampleDB ⟨1, 42⟩

/-- C10: any provider other than the literal "qr_payment" makes
`create_payment_for_order` return a BadRequest naming the rejected
provider, with the database returned exactly as it was — the outcome does
not depend on the database contents at all. -/
theorem create_payment_invalid_provider (id patient_id : Int) (provider : String)
    (unit_prices : Int → Option Money) (newPaymentId now : Int) (db : DB)
    (h : provider ≠ "qr_payment") :
    create_payment_for_order id patient_id provider unit_prices newPaymentId now db
      = (db, .error (.BadRequest (provider ++ " is not a valid payment provider"))) := by
  unfold create_payment_for_order
  simp [h]

/-- Witness for C10, rejecting provider "cash". -/
theorem create_payment_invalid_provider_witness :
    create_payment_for_order 1 7 "cash" examplePrices 55 3 exampleDB
      = (exampleDB, .error (.BadRequest "cash is not a valid payment provider")) :=
  create_payment_invalid_provider 1 7 "cash" examplePrices 55 3 exampleDB (by decide)

end Medbook
